import Mathlib

/-
Verification of the SimpleCovidModel core (src/model.py) against its
natural-language specification.

The Python floats are idealised as real numbers (the time grid, whose
arithmetic is exact rational division, is idealised as rationals so that
its values can be computed exactly).  The two external numerical
collaborators — the ODE integrator (scipy's odeint) and the nonlinear
least-squares solver (lmfit) — are black boxes per the specification, so
they appear as function parameters; everything else is translated
directly from src/model.py.
-/

namespace SimpleCovidModel

/-- The eight named model parameters, in the order of the signature of
SimpleCovidModel.deriv (src/model.py lines 23-35). -/
structure Params where
  beta_a : ℝ
  beta_b : ℝ
  beta_k : ℝ
  slipthrough : ℝ
  lockdown_a : ℝ
  lockdown_b : ℝ
  gamma : ℝ
  rho : ℝ

/-- src/model.py lines 16-17: beta(beta_a, beta_b, beta_k, t) =
beta_k / (1 + exp(beta_a + beta_b * t)). -/
noncomputable def beta (beta_a beta_b beta_k t : ℝ) : ℝ :=
  beta_k / (1 + Real.exp (beta_a + beta_b * t))

/-- src/model.py lines 19-20: lockdown(a, b, t) = 1 / (1 + exp(a + b * t)). -/
noncomputable def lockdown (a b t : ℝ) : ℝ :=
  1 / (1 + Real.exp (a + b * t))

/-- Spec-side definition (refinement counterpart), written from the
specification text of section 4.1: transmissionRate computes
beta_k / (1 + exp(beta_a + beta_b * t)). -/
noncomputable def transmissionRate (beta_a beta_b beta_k t : ℝ) : ℝ :=
  beta_k / (1 + Real.exp (beta_a + beta_b * t))

/-- Spec-side definition (refinement counterpart), written from the
specification text of section 4.1: interventionIntensity computes
1 / (1 + exp(a + b * t)). -/
noncomputable def interventionIntensity (a b t : ℝ) : ℝ :=
  1 / (1 + Real.exp (a + b * t))

/-- src/model.py lines 23-57: the SIR model differential equations.
Takes the state 4-tuple y = (S, I, R, D), the time t and the eight
parameters, and returns the 4-tuple (dSdt, dIdt, dRdt, dDdt).
N is self.N (line 37). -/
noncomputable def deriv (N : ℝ) (y : ℝ × ℝ × ℝ × ℝ) (t beta_a beta_b beta_k
    slipthrough lockdown_a lockdown_b gamma rho : ℝ) : ℝ × ℝ × ℝ × ℝ :=
  match y with
  | (S, I, _R, _D) =>
    (-(beta beta_a beta_b beta_k t)
        * (lockdown lockdown_a lockdown_b t - slipthrough) * S * I / N,
     beta beta_a beta_b beta_k t
        * (1 + slipthrough - lockdown lockdown_a lockdown_b t) * S * I / N
        - gamma * I,
     (1 - rho) * gamma * I,
     rho * gamma * I)

/-- numpy.linspace(start, stop, num) with the default endpoint=True, as
called on src/model.py line 13; idealised over the rationals.  For
num >= 2 it returns the num points start + i * (stop - start) / (num - 1),
whose last one is exactly stop; for num = 1 it returns [start]. -/
def linspace (start stop : ℚ) (num : ℕ) : List ℚ :=
  if num = 0 then []
  else if num = 1 then [start]
  else (List.range num).map
    (fun (i : ℕ) => start + (stop - start) * i / ((num : ℚ) - 1))

/-- src/model.py line 13: self.t = np.linspace(0, days, days). -/
def timeGrid (days : ℕ) : List ℚ :=
  linspace 0 days days

/-- C1: for every state (S, I, R, D), time t and the eight named
parameters, deriv returns exactly the four rates of the specification:
dS/dt = -beta(t) * (lockdown(t) - slipthrough) * S * I / N,
dI/dt = beta(t) * (1 + slipthrough - lockdown(t)) * S * I / N - gamma * I,
dR/dt = (1 - rho) * gamma * I and dD/dt = rho * gamma * I, where
beta(t) = transmissionRate(beta_a, beta_b, beta_k, t) and
lockdown(t) = interventionIntensity(lockdown_a, lockdown_b, t). -/
theorem deriv_matches_spec (N S I R D t beta_a beta_b beta_k slipthrough
    lockdown_a lockdown_b gamma rho : ℝ) :
    deriv N (S, I, R, D) t beta_a beta_b beta_k slipthrough
      lockdown_a lockdown_b gamma rho =
    (-(transmissionRate beta_a beta_b beta_k t)
        * (interventionIntensity lockdown_a lockdown_b t - slipthrough)
        * S * I / N,
     transmissionRate beta_a beta_b beta_k t
        * (1 + slipthrough - interventionIntensity lockdown_a lockdown_b t)
        * S * I / N - gamma * I,
     (1 - rho) * gamma * I,
     rho * gamma * I) := rfl

/-- C10: for all parameters a, b, k and every time t, the transmission
curve is exactly the intervention-intensity logistic scaled by beta_k:
beta a b k t = k * lockdown a b t. -/
theorem beta_eq_scaled_lockdown (a b k t : ℝ) :
    beta a b k t = k * lockdown a b t := by
  unfold beta lockdown
  ring

/-- C2 (amended): the four components returned by deriv sum to
beta(t) * (1 + 2 * slipthrough - 2 * lockdown(t)) * S * I / N, which is
in general nonzero, so the derivative equations do not conserve
S + I + R + D by construction; the sum vanishes only where
1 + 2 * slipthrough = 2 * lockdown(t). -/
theorem deriv_sum (N S I R D t beta_a beta_b beta_k slipthrough
    lockdown_a lockdown_b gamma rho : ℝ) :
    (deriv N (S, I, R, D) t beta_a beta_b beta_k slipthrough
        lockdown_a lockdown_b gamma rho).1
      + (deriv N (S, I, R, D) t beta_a beta_b beta_k slipthrough
        lockdown_a lockdown_b gamma rho).2.1
      + (deriv N (S, I, R, D) t beta_a beta_b beta_k slipthrough
        lockdown_a lockdown_b gamma rho).2.2.1
      + (deriv N (S, I, R, D) t beta_a beta_b beta_k slipthrough
        lockdown_a lockdown_b gamma rho).2.2.2
      = beta beta_a beta_b beta_k t
        * (1 + 2 * slipthrough - 2 * lockdown lockdown_a lockdown_b t)
        * S * I / N := by
  simp only [deriv]
  ring

/-- C2 (counterexample): at N = 1, state (1, 1, 0, 0), t = 0, parameters
beta_a = 0, beta_b = 0, beta_k = 2, slipthrough = 1, lockdown_a = 0,
lockdown_b = 0, gamma = 0, rho = 0, the four components of deriv sum to
2, not 0, so the population total is not conserved by the derivative
equations. -/
theorem deriv_sum_counterexample :
    ¬ ((deriv 1 (1, 1, 0, 0) 0 0 0 2 1 0 0 0 0).1
      + (deriv 1 (1, 1, 0, 0) 0 0 0 2 1 0 0 0 0).2.1
      + (deriv 1 (1, 1, 0, 0) 0 0 0 2 1 0 0 0 0).2.2.1
      + (deriv 1 (1, 1, 0, 0) 0 0 0 2 1 0 0 0 0).2.2.2 = 0) := by
  simp only [deriv, beta, lockdown]
  norm_num [Real.exp_zero]

/-- C9: whenever gamma >= 0 and rho >= 0, for every state with I >= 0 and
every time t the dD/dt component of deriv is nonnegative, and the dI/dt
component carries a factor of I (so I >= 0 is preserved from a
nonnegative initial state). -/
theorem deriv_dead_nonneg (N S I R D t beta_a beta_b beta_k slipthrough
    lockdown_a lockdown_b gamma rho : ℝ)
    (hg : 0 ≤ gamma) (hr : 0 ≤ rho) (hI : 0 ≤ I) :
    0 ≤ (deriv N (S, I, R, D) t beta_a beta_b beta_k slipthrough
        lockdown_a lockdown_b gamma rho).2.2.2
    ∧ (deriv N (S, I, R, D) t beta_a beta_b beta_k slipthrough
        lockdown_a lockdown_b gamma rho).2.1
      = (beta beta_a beta_b beta_k t
          * (1 + slipthrough - lockdown lockdown_a lockdown_b t) * S / N
          - gamma) * I := by
  constructor
  · exact mul_nonneg (mul_nonneg hr hg) hI
  · simp only [deriv]
    ring

/-- C9 (witness): the theorem instantiated at N = 1, state (2, 3, 0, 0),
t = 0 and concrete parameters with gamma = 1, rho = 1. -/
theorem deriv_dead_nonneg_witness :
    (0 : ℝ) ≤ 1 ∧ (0 : ℝ) ≤ 3
    ∧ (0 ≤ (deriv 1 (2, 3, 0, 0) 0 0 0 1 0 0 0 1 1).2.2.2
      ∧ (deriv 1 (2, 3, 0, 0) 0 0 0 1 0 0 0 1 1).2.1
        = (beta 0 0 1 0 * (1 + 0 - lockdown 0 0 0) * 2 / 1 - 1) * 3) :=
  ⟨by norm_num, by norm_num,
    deriv_dead_nonneg 1 2 3 0 0 0 0 0 1 0 0 0 1 1
      (by norm_num) (by norm_num) (by norm_num)⟩

/-- For days >= 2, the time grid is the list of the days values
i * (days / (days - 1)) for i = 0, ..., days - 1. -/
lemma timeGrid_eq_map (d : ℕ) (hd : 2 ≤ d) :
    timeGrid d
      = (List.range d).map
          (fun (i : ℕ) => (i : ℚ) * ((d : ℚ) / ((d : ℚ) - 1))) := by
  have h0 : ¬ d = 0 := by omega
  have h1 : ¬ d = 1 := by omega
  unfold timeGrid linspace
  rw [if_neg h0, if_neg h1]
  refine List.map_congr_left (fun i _ => ?_)
  ring

/-- C6 (amended): for every days >= 1, the time grid is an ordered,
evenly-spaced sequence of exactly days points starting at 0 and spanning
the closed interval [0, days]: every point lies in [0, days], and for
days >= 2 the last point equals days (endpoint included), with constant
spacing days / (days - 1). -/
theorem timeGrid_props (d : ℕ) (hd : 1 ≤ d) :
    (timeGrid d).length = d
    ∧ (timeGrid d)[0]? = some 0
    ∧ (timeGrid d).Pairwise (· < ·)
    ∧ (∀ x ∈ timeGrid d, 0 ≤ x ∧ x ≤ (d : ℚ))
    ∧ (2 ≤ d → (timeGrid d)[d - 1]? = some (d : ℚ)
        ∧ ∀ i : ℕ, i + 1 < d →
          (timeGrid d)[i + 1]?
            = ((timeGrid d)[i]?).map (fun x => x + (d : ℚ) / ((d : ℚ) - 1))) := by
  rcases eq_or_lt_of_le hd with h1 | h2
  · have ht : timeGrid d = [0] := by
      rw [← h1]
      rfl
    refine ⟨by rw [ht, ← h1]; rfl, by rw [ht]; rfl, by rw [ht]; simp, ?_, ?_⟩
    · intro x hx
      rw [ht, List.mem_singleton] at hx
      subst hx
      constructor
      · exact le_refl 0
      · positivity
    · intro h2
      omega
  · have hd2 : 2 ≤ d := h2
    have hcast : (1 : ℚ) ≤ (d : ℚ) - 1 := by
      have : (2 : ℚ) ≤ (d : ℚ) := by exact_mod_cast hd2
      linarith
    have hpos : 0 < (d : ℚ) / ((d : ℚ) - 1) :=
      div_pos (by positivity) (by linarith)
    rw [timeGrid_eq_map d hd2]
    refine ⟨by simp, ?_, ?_, ?_, fun _ => ⟨?_, ?_⟩⟩
    · rw [List.getElem?_map, List.getElem?_range (by omega : 0 < d)]
      simp
    · rw [List.pairwise_map]
      refine (List.pairwise_lt_range ..).imp (fun hij => ?_)
      exact mul_lt_mul_of_pos_right (by exact_mod_cast hij) hpos
    · intro x hx
      rw [List.mem_map] at hx
      obtain ⟨i, hi, rfl⟩ := hx
      rw [List.mem_range] at hi
      constructor
      · positivity
      · have hle : (i : ℚ) ≤ (d : ℚ) - 1 := by
          have : (i : ℚ) + 1 ≤ (d : ℚ) := by exact_mod_cast hi
          linarith
        calc (i : ℚ) * ((d : ℚ) / ((d : ℚ) - 1))
            ≤ ((d : ℚ) - 1) * ((d : ℚ) / ((d : ℚ) - 1)) :=
              mul_le_mul_of_nonneg_right hle (le_of_lt hpos)
          _ = (d : ℚ) := by
              field_simp
    · rw [List.getElem?_map, List.getElem?_range (by omega : d - 1 < d)]
      have hc : ((d - 1 : ℕ) : ℚ) = (d : ℚ) - 1 := by
        push_cast [Nat.cast_sub (by omega : 1 ≤ d)]
        ring
      simp only [Option.map_some']
      rw [hc]
      congr 1
      field_simp
    · intro i hi
      rw [List.getElem?_map, List.getElem?_range (by omega : i + 1 < d),
        List.getElem?_map, List.getElem?_range (by omega : i < d)]
      simp only [Option.map_some']
      congr 1
      push_cast
      ring

/-- C6 (counterexample): for days = 2 the time grid is [0, 2], whose last
point equals days = 2, so the grid does not span the half-open interval
[0, days): not every point is strictly less than days. -/
theorem timeGrid_counterexample :
    timeGrid 2 = [0, 2] ∧ ¬ (∀ x ∈ timeGrid 2, x < 2) := by
  have h : timeGrid 2 = [0, 2] := by
    unfold timeGrid linspace
    norm_num [List.range_succ]
  refine ⟨h, fun hall => ?_⟩
  have := hall 2 (by rw [h]; simp)
  exact absurd this (by norm_num)

/-- C6 (witness): the amended grid properties instantiated at days = 3,
where the grid is [0, 3/2, 3]. -/
theorem timeGrid_props_witness :
    1 ≤ 3
    ∧ ((timeGrid 3).length = 3
      ∧ (timeGrid 3)[0]? = some 0
      ∧ (timeGrid 3).Pairwise (· < ·)
      ∧ (∀ x ∈ timeGrid 3, 0 ≤ x ∧ x ≤ ((3 : ℕ) : ℚ))
      ∧ (2 ≤ 3 → (timeGrid 3)[3 - 1]? = some ((3 : ℕ) : ℚ)
          ∧ ∀ i : ℕ, i + 1 < 3 →
            (timeGrid 3)[i + 1]?
              = ((timeGrid 3)[i]?).map
                  (fun x => x + ((3 : ℕ) : ℚ) / (((3 : ℕ) : ℚ) - 1)))) :=
  ⟨by norm_num, timeGrid_props 3 (by norm_num)⟩

/-- C7 (amended): for beta_k >= 0 and every time t, the transmission rate
beta stays within [0, beta_k]; for all a, b and every time t the
intervention intensity lockdown stays strictly within (0, 1); and for
b > 0, lockdown tends to 1 as t tends to negative infinity and to 0 as t
tends to positive infinity.  (The [0, beta_k] bound requires beta_k >= 0:
for negative beta_k the value is negative.) -/
theorem rate_function_bounds (beta_a beta_b beta_k a b : ℝ) :
    (0 ≤ beta_k → ∀ t, 0 ≤ beta beta_a beta_b beta_k t
      ∧ beta beta_a beta_b beta_k t ≤ beta_k)
    ∧ (∀ t, 0 < lockdown a b t ∧ lockdown a b t < 1)
    ∧ (0 < b →
      Filter.Tendsto (fun t => lockdown a b t) Filter.atBot (nhds 1)
      ∧ Filter.Tendsto (fun t => lockdown a b t) Filter.atTop (nhds 0)) := by
  refine ⟨fun hk t => ⟨?_, ?_⟩, fun t => ⟨?_, ?_⟩, fun hb => ⟨?_, ?_⟩⟩
  · exact div_nonneg hk
      (by linarith [Real.exp_pos (beta_a + beta_b * t)])
  · exact div_le_self hk
      (by linarith [Real.exp_pos (beta_a + beta_b * t)])
  · exact div_pos one_pos (by linarith [Real.exp_pos (a + b * t)])
  · rw [lockdown, div_lt_one (by linarith [Real.exp_pos (a + b * t)])]
    linarith [Real.exp_pos (a + b * t)]
  · have hlin_bot : Filter.Tendsto (fun t : ℝ => a + b * t) Filter.atBot
        Filter.atBot :=
      Filter.tendsto_atBot_add_const_left _ a
        (Filter.tendsto_id.const_mul_atBot hb)
    have hexp : Filter.Tendsto (fun t : ℝ => Real.exp (a + b * t))
        Filter.atBot (nhds 0) :=
      Real.tendsto_exp_atBot.comp hlin_bot
    have hsum : Filter.Tendsto (fun t : ℝ => 1 + Real.exp (a + b * t))
        Filter.atBot (nhds (1 + 0)) :=
      hexp.const_add 1
    have hinv := hsum.inv₀ (by norm_num)
    simp only [lockdown, one_div]
    have h1 : ((1 : ℝ) + 0)⁻¹ = 1 := by norm_num
    rw [h1] at hinv
    exact hinv
  · have hlin_top : Filter.Tendsto (fun t : ℝ => a + b * t) Filter.atTop
        Filter.atTop :=
      Filter.tendsto_atTop_add_const_left _ a
        (Filter.tendsto_id.const_mul_atTop hb)
    have hexp : Filter.Tendsto (fun t : ℝ => Real.exp (a + b * t))
        Filter.atTop Filter.atTop :=
      Real.tendsto_exp_atTop.comp hlin_top
    have hsum : Filter.Tendsto (fun t : ℝ => 1 + Real.exp (a + b * t))
        Filter.atTop Filter.atTop :=
      Filter.tendsto_atTop_add_const_left _ 1 hexp
    simp only [lockdown, one_div]
    exact hsum.inv_tendsto_atTop

/-- C7 (counterexample): at beta_a = 0, beta_b = 0, beta_k = -1, t = 0,
the transmission rate equals -1/2, which does not lie within [0, beta_k]
= [0, -1] (indeed 0 <= -1/2 already fails), so the bound claimed for all
parameters fails for negative beta_k. -/
theorem rate_function_counterexample :
    beta 0 0 (-1) 0 = -(1 / 2)
    ∧ ¬ (0 ≤ beta 0 0 (-1) 0 ∧ beta 0 0 (-1) 0 ≤ -1) := by
  have h : beta 0 0 (-1) 0 = -(1 / 2) := by
    unfold beta
    norm_num [Real.exp_zero]
  exact ⟨h, by rw [h]; norm_num⟩

/-- C7 (witness): the amended bounds instantiated at beta_a = 0,
beta_b = 0, beta_k = 1, a = 0, b = 1. -/
theorem rate_function_bounds_witness :
    (0 : ℝ) ≤ 1 ∧ (0 : ℝ) < 1
    ∧ (∀ t, 0 ≤ beta 0 0 1 t ∧ beta 0 0 1 t ≤ 1)
    ∧ (∀ t, 0 < lockdown 0 1 t ∧ lockdown 0 1 t < 1)
    ∧ Filter.Tendsto (fun t => lockdown 0 1 t) Filter.atBot (nhds 1)
    ∧ Filter.Tendsto (fun t => lockdown 0 1 t) Filter.atTop (nhds 0) :=
  ⟨by norm_num, by norm_num,
    (rate_function_bounds 0 0 1 0 1).1 (by norm_num),
    (rate_function_bounds 0 0 1 0 1).2.1,
    ((rate_function_bounds 0 0 1 0 1).2.2 (by norm_num)).1,
    ((rate_function_bounds 0 0 1 0 1).2.2 (by norm_num)).2⟩

/-- The transposed output of the integrator, ret.T: one ordered sequence
per compartment (src/model.py line 75). -/
structure Trajectory where
  S : List ℝ
  I : List ℝ
  R : List ℝ
  D : List ℝ

/-- The type of the derivative callback handed to the integrator:
state 4-tuple, time, and the eight scalar parameters. -/
def DerivFn : Type :=
  (ℝ × ℝ × ℝ × ℝ) → ℝ → ℝ → ℝ → ℝ → ℝ → ℝ → ℝ → ℝ → ℝ → ℝ × ℝ × ℝ × ℝ

/-- The external ODE integrator (scipy's odeint), a black box per the
specification's collaborator contract (section 6): given a derivative
function, an initial state, a time grid and the extra parameter
arguments, it returns the trajectory. -/
def Integrator : Type :=
  DerivFn → (ℝ × ℝ × ℝ × ℝ) → List ℚ → Params → Trajectory

/-- The model instance state (src/model.py lines 8-14). -/
structure ModelState where
  N : ℝ
  days : ℕ
  y0 : ℝ × ℝ × ℝ × ℝ
  params : Params
  t : List ℚ
  fit_data : List ℝ

/-- SimpleCovidModel.__init__ (src/model.py lines 8-14): stores the
arguments and builds the time grid self.t = np.linspace(0, days, days). -/
def init (N : ℝ) (days : ℕ) (y0 : ℝ × ℝ × ℝ × ℝ) (params : Params)
    (fit_data : List ℝ) : ModelState :=
  ⟨N, days, y0, params, timeGrid days, fit_data⟩

/-- Replaces only the two intervention parameters of a parameter set,
keeping the other six. -/
def setLockdown (p : Params) (lockdown_a lockdown_b : ℝ) : Params :=
  ⟨p.beta_a, p.beta_b, p.beta_k, p.slipthrough, lockdown_a, lockdown_b,
    p.gamma, p.rho⟩

/-- SimpleCovidModel.fitter (src/model.py lines 77-95): integrates from
the stored initial state over the stored time grid with the candidate
parameters and returns ret.T[3], the Dead-compartment sequence. -/
noncomputable def fitter (odeint : Integrator) (m : ModelState) (p : Params) : List ℝ :=
  (odeint (deriv m.N) m.y0 m.t p).D

/-- The external nonlinear least-squares solver used by fit (lmfit), a
black box per the specification's collaborator contract (section 6):
given the model function, the target series and the initial parameter
guess, it returns the best-fit parameters (the convergence report is
consumed only for display and is not modelled). -/
def Solver : Type :=
  (Params → List ℝ) → List ℝ → Params → Params

/-- SimpleCovidModel.fit (src/model.py lines 97-123): runs the solver on
the fitter adapter with the observed data, seeded with the stored
parameters, then executes self.params = result.params. -/
noncomputable def fit (odeint : Integrator) (solver : Solver) (m : ModelState) :
    ModelState :=
  ⟨m.N, m.days, m.y0, solver (fitter odeint m) m.fit_data m.params, m.t,
    m.fit_data⟩

/-- SimpleCovidModel.optimizer (src/model.py lines 125-144): integrates
with the stored parameters except the two candidate intervention values,
and returns only ret.T[3][-1], the final cumulative death count (none
when the trajectory is empty, where Python would raise IndexError). -/
noncomputable def optimizer (odeint : Integrator) (m : ModelState)
    (lockdown_a lockdown_b : ℝ) : Option ℝ :=
  (odeint (deriv m.N) m.y0 m.t
    (setLockdown m.params lockdown_a lockdown_b)).D.getLast?

/-- One bounded solver parameter, mirroring
params.add(name, min=0, max=1, value=0.2) (src/model.py lines 152-153). -/
structure BoundedParam where
  min : ℝ
  max : ℝ
  value : ℝ

/-- The external bounded least-squares solver used by optimize (lmfit), a
black box per the specification's collaborator contract (section 6):
given the scalar objective, the target series and the two bounded
parameter declarations, it returns the fitted (lockdown_a, lockdown_b)
pair. -/
def Solver2 : Type :=
  (ℝ → ℝ → Option ℝ) → List ℝ → BoundedParam → BoundedParam → ℝ × ℝ

/-- SimpleCovidModel.optimize (src/model.py lines 146-170): declares the
local lmfit.Parameters entries lockdown_a and lockdown_b with bounds
[0, 1] and value 0.2 (lines 150-153), then calls mod.fit with the
keyword arguments lockdown_a=self.params["lockdown_a"] and
lockdown_b=self.params["lockdown_b"] (lines 158-165).  Per lmfit's
Model.fit semantics, the keyword arguments override the declared values
(not the bounds) as the search seed, and the fit operates on a deep copy
of the passed Parameters: the fitted values live only in result.params,
and the caller's local object keeps value 0.2.  Lines 169-170 then store
params["lockdown_a"] and params["lockdown_b"] — the local, unmutated
declarations — into the stored parameter set, discarding the solver's
result, so the two intervention entries end up holding the pre-fit
declaration value 0.2. -/
noncomputable def optimize (odeint : Integrator) (solver : Solver2)
    (m : ModelState) : ModelState :=
  let pa : BoundedParam := ⟨0, 1, 0.2⟩
  let pb : BoundedParam := ⟨0, 1, 0.2⟩
  let _result := solver (optimizer odeint m) m.fit_data
    ⟨pa.min, pa.max, m.params.lockdown_a⟩
    ⟨pb.min, pb.max, m.params.lockdown_b⟩
  ⟨m.N, m.days, m.y0, setLockdown m.params pa.value pb.value, m.t,
    m.fit_data⟩

/-- C3: the InterventionOptimizer's objective, for any candidate
(lockdown_a, lockdown_b) with all other parameters held at their stored
values, returns only the final cumulative death count — the last time
point of the simulated Dead sequence — and not the full series. -/
theorem optimizer_returns_final_death (odeint : Integrator)
    (m : ModelState) (lockdown_a lockdown_b : ℝ) (ds : List ℝ) (x : ℝ)
    (hD : (odeint (deriv m.N) m.y0 m.t
        (setLockdown m.params lockdown_a lockdown_b)).D = ds ++ [x]) :
    optimizer odeint m lockdown_a lockdown_b = some x := by
  rw [optimizer, hD]
  exact List.getLast?_concat ds

/-- A concrete parameter set used by the closed witnesses. -/
noncomputable def p0 : Params :=
  ⟨0, 0, 0, 0, 0, 0, 0, 0⟩

/-- A concrete model state used by the closed witnesses. -/
noncomputable def m0 : ModelState :=
  ⟨1, 1, (0, 0, 0, 0), p0, [], []⟩

/-- A concrete integrator used by the closed witnesses: its trajectory
has the constant Dead sequence [5, 7]. -/
noncomputable def odeint0 : Integrator :=
  fun _ _ _ _ => ⟨[], [], [], [5, 7]⟩

/-- A concrete bounded solver used by the closed counterexample: it
reports the fitted pair (3/4, 3/4). -/
noncomputable def solver1 : Solver2 :=
  fun _ _ _ _ => (3 / 4, 3 / 4)

/-- C3 (witness): with the concrete integrator whose Dead sequence is
[5, 7], the objective returns some 7, the final death count. -/
theorem optimizer_returns_final_death_witness :
    (odeint0 (deriv m0.N) m0.y0 m0.t (setLockdown m0.params 0 0)).D
      = [5] ++ [7]
    ∧ optimizer odeint0 m0 0 0 = some 7 :=
  ⟨rfl, optimizer_returns_final_death odeint0 m0 0 0 [5] 7 rfl⟩

/-- C4 (amended): after optimize completes, only the lockdown_a and
lockdown_b entries of the stored parameter set are overwritten, and the
other six parameters keep exactly the values they had before the call;
but the two entries receive the pre-fit declaration value 0.2 of the
local lmfit.Parameters object — not the solver's fitted values, which
live only in the discarded result — for every integrator, solver and
prior state. -/
theorem optimize_frame (odeint : Integrator) (solver : Solver2)
    (m : ModelState) :
    (optimize odeint solver m).params.beta_a = m.params.beta_a
    ∧ (optimize odeint solver m).params.beta_b = m.params.beta_b
    ∧ (optimize odeint solver m).params.beta_k = m.params.beta_k
    ∧ (optimize odeint solver m).params.slipthrough = m.params.slipthrough
    ∧ (optimize odeint solver m).params.gamma = m.params.gamma
    ∧ (optimize odeint solver m).params.rho = m.params.rho
    ∧ (optimize odeint solver m).params.lockdown_a = 0.2
    ∧ (optimize odeint solver m).params.lockdown_b = 0.2 :=
  ⟨rfl, rfl, rfl, rfl, rfl, rfl, rfl, rfl⟩

/-- C4 (counterexample): with the concrete solver whose fitted pair is
(3/4, 3/4), the completed optimization stores lockdown_a = 0.2, which is
not the fitted value 3/4: the stored entries are not overwritten with
the optimization's fitted values. -/
theorem optimize_frame_counterexample :
    (optimize odeint0 solver1 m0).params.lockdown_a = 0.2
    ∧ (solver1 (optimizer odeint0 m0) m0.fit_data
        ⟨0, 1, m0.params.lockdown_a⟩ ⟨0, 1, m0.params.lockdown_b⟩).1 = 3 / 4
    ∧ (optimize odeint0 solver1 m0).params.lockdown_a
      ≠ (solver1 (optimizer odeint0 m0) m0.fit_data
        ⟨0, 1, m0.params.lockdown_a⟩ ⟨0, 1, m0.params.lockdown_b⟩).1 := by
  refine ⟨rfl, rfl, ?_⟩
  simp only [optimize, setLockdown, solver1]
  norm_num

/-- C5: after fit completes, the stored parameter set is replaced in full
with the best-fit parameters returned by the least-squares solver run on
the Dead-sequence adapter, the observed data and the pre-fit parameters
as seed: all eight parameters come from the solver's result. -/
theorem fit_replaces_params (odeint : Integrator) (solver : Solver)
    (m : ModelState) :
    (fit odeint solver m).params
      = solver (fitter odeint m) m.fit_data m.params
    ∧ (fit odeint solver m).params.beta_a
      = (solver (fitter odeint m) m.fit_data m.params).beta_a
    ∧ (fit odeint solver m).params.beta_b
      = (solver (fitter odeint m) m.fit_data m.params).beta_b
    ∧ (fit odeint solver m).params.beta_k
      = (solver (fitter odeint m) m.fit_data m.params).beta_k
    ∧ (fit odeint solver m).params.slipthrough
      = (solver (fitter odeint m) m.fit_data m.params).slipthrough
    ∧ (fit odeint solver m).params.lockdown_a
      = (solver (fitter odeint m) m.fit_data m.params).lockdown_a
    ∧ (fit odeint solver m).params.lockdown_b
      = (solver (fitter odeint m) m.fit_data m.params).lockdown_b
    ∧ (fit odeint solver m).params.gamma
      = (solver (fitter odeint m) m.fit_data m.params).gamma
    ∧ (fit odeint solver m).params.rho
      = (solver (fitter odeint m) m.fit_data m.params).rho :=
  ⟨rfl, rfl, rfl, rfl, rfl, rfl, rfl, rfl, rfl⟩

/-- C8: the intervention optimization always stores lockdown_a and
lockdown_b values within [0, 1], regardless of the other parameters, the
integrator and the solver.  The two re-optimized parameters are declared
with bounds [0, 1] and initial value 0.2; what lines 169-170 store is
the declarations' pre-fit value 0.2, which lies within the declared
bounds, so the property holds unconditionally. -/
theorem optimize_bounded (odeint : Integrator) (solver : Solver2)
    (m : ModelState) :
    (0 ≤ (optimize odeint solver m).params.lockdown_a
      ∧ (optimize odeint solver m).params.lockdown_a ≤ 1)
    ∧ (0 ≤ (optimize odeint solver m).params.lockdown_b
      ∧ (optimize odeint solver m).params.lockdown_b ≤ 1) := by
  simp only [optimize, setLockdown]
  norm_num

end SimpleCovidModel
